import Mathlib

/-!
Verification development for the `generate_video.py` ComfyUI client.

The script builds a ComfyUI workflow: a JSON object mapping node identifiers
to nodes, each node carrying a `class_type` tag and an `inputs` dictionary
whose values are literals (string / number / boolean) or references
`[node-id, slot-index]` to another node's output slot.

We embed the workflow data model, the three graph builders
(`build_workflow` for T2V, `build_i2v_workflow` for I2V, `build_i2i_workflow`
for I2I), the mode-default resolution from `main`, the output-name
normalisation from `main`, and the polling loop `wait_for_completion`.

Modelling conventions:
  * Python ints are `Int` (Python `//` is `Int.fdiv`, floor division);
    Python floats appearing here are decimal literals carried verbatim into
    the JSON payload, embedded exactly as `Rat`.
  * JSON dictionaries are association lists in insertion order.
  * the polling loop's interaction with the outside world (wall clock,
    HTTP queries) is an explicit trace of per-iteration observations.
-/

/-- Value of one entry of a node's `inputs` dictionary: a string, numeric or
boolean literal, or a `[node-id, slot-index]` reference to another node's
output slot. -/
inductive JVal : Type
  | str (s : String)
  | num (q : ℚ)
  | bool (b : Bool)
  | ref (node : String) (slot : ℕ)
deriving DecidableEq

/-- One workflow node: a `class_type` tag and the `inputs` dictionary
(association list in the insertion order of the Python dict literal). -/
structure WNode : Type where
  class_type : String
  inputs : List (String × JVal)
deriving DecidableEq

/-- A workflow graph: association list from node identifier to node, in the
insertion order of the Python dict literal. -/
def Graph : Type := List (String × WNode)

/-- T2V default negative prompt (generate_video.py line 617). -/
def t2v_default_negative : String :=
  "blurry, low quality, distorted, deformed, static, frozen, flickering, morphing, ugly, bad anatomy, extra limbs, missing limbs, watermark, text, logo"

/-- I2V default negative prompt (generate_video.py line 612). -/
def i2v_default_negative : String :=
  "blurry, low quality, distorted, deformed, static, frozen, flickering, morphing, ugly, bad anatomy, extra limbs, missing limbs, watermark, text, logo, different person, changing face"

/-- I2I default negative prompt (generate_video.py line 607). -/
def i2i_default_negative : String :=
  "ugly, deformed, noisy, blurry, low quality, cartoon, anime, 3d render, bad anatomy, bad proportions, extra limbs, cloned face, disfigured, gross proportions, malformed limbs, missing arms, missing legs, mutated hands, poorly drawn face, poorly drawn hands"

/-- Embedding of `build_workflow` (generate_video.py lines 342-428): the T2V
pipeline CheckpointLoader -> ModelSamplingSD3 -> CLIPTextEncode x2 ->
WanImageToVideo -> KSampler -> VAEDecode -> VHS_VideoCombine. -/
def build_workflow (prompt negative_prompt : String) (width height frames steps : ℤ)
    (cfg : ℚ) (seed : ℤ) ( filename_prefix : String) : Graph :=
  [ ("1", { class_type := "CheckpointLoaderSimple",
            inputs := [("ckpt_name", JVal.str "wan2.2-rapid-mega-aio-nsfw-v12.1.safetensors")] }),
    ("2", { class_type := "ModelSamplingSD3",
            inputs := [("model", JVal.ref "1" 0), ("shift", JVal.num 8.0)] }),
    ("3", { class_type := "CLIPTextEncode",
            inputs := [("text", JVal.str prompt), ("clip", JVal.ref "1" 1)] }),
    ("4", { class_type := "CLIPTextEncode",
            inputs := [("text", JVal.str negative_prompt), ("clip", JVal.ref "1" 1)] }),
    ("5", { class_type := "WanImageToVideo",
            inputs := [("positive", JVal.ref "3" 0), ("negative", JVal.ref "4" 0),
                       ("vae", JVal.ref "1" 2), ("width", JVal.num (width : ℚ)),
                       ("height", JVal.num (height : ℚ)), ("length", JVal.num (frames : ℚ)),
                       ("batch_size", JVal.num 1)] }),
    ("6", { class_type := "KSampler",
            inputs := [("model", JVal.ref "2" 0), ("positive", JVal.ref "5" 0),
                       ("negative", JVal.ref "5" 1), ("latent_image", JVal.ref "5" 2),
                       ("seed", JVal.num (seed : ℚ)), ("steps", JVal.num (steps : ℚ)),
                       ("cfg", JVal.num cfg), ("sampler_name", JVal.str "euler_ancestral"),
                       ("scheduler", JVal.str "beta"), ("denoise", JVal.num 1.0)] }),
    ("7", { class_type := "VAEDecode",
            inputs := [("samples", JVal.ref "6" 0), ("vae", JVal.ref "1" 2)] }),
    ("8", { class_type := "VHS_VideoCombine",
            inputs := [("images", JVal.ref "7" 0), ("frame_rate", JVal.num 16),
                       ("loop_count", JVal.num 0),
                       ("filename_prefix", JVal.str filename_prefix),
                       ("format", JVal.str "video/h264-mp4"), ("pix_fmt", JVal.str "yuv420p"),
                       ("crf", JVal.num 19), ("save_metadata", JVal.bool true),
                       ("pingpong", JVal.bool false), ("save_output", JVal.bool true)] }) ]

/-- Embedding of `build_i2v_workflow` (generate_video.py lines 78-237): the
two-stage I2V pipeline. Stage split: `stage1_end = steps // 2` (Python floor
division), node "12" samples `[0, stage1_end)` on the high-noise model with
noise added and leftover noise returned, node "13" samples
`[stage1_end, steps)` on the low-noise model from node "12"'s latent. -/
def build_i2v_workflow (prompt negative_prompt image_filename : String)
    (width height frames steps : ℤ) (cfg : ℚ) (seed : ℤ)
    ( filename_prefix : String) : Graph :=
  let stage1_end : ℤ := Int.fdiv steps 2
  let stage2_start : ℤ := stage1_end
  [ ("1", { class_type := "LoadImage",
            inputs := [("image", JVal.str image_filename)] }),
    ("2", { class_type := "ImageScale",
            inputs := [("image", JVal.ref "1" 0), ("upscale_method", JVal.str "lanczos"),
                       ("width", JVal.num (width : ℚ)), ("height", JVal.num (height : ℚ)),
                       ("crop", JVal.str "disabled")] }),
    ("3", { class_type := "CLIPLoader",
            inputs := [("clip_name", JVal.str "umt5_xxl_fp8_e4m3fn_scaled.safetensors"),
                       ("type", JVal.str "wan")] }),
    ("4", { class_type := "VAELoader",
            inputs := [("vae_name", JVal.str "wan_2.1_vae.safetensors")] }),
    ("5", { class_type := "UNETLoader",
            inputs := [("unet_name", JVal.str "wan2.2_i2v_high_noise_14B_fp8_scaled.safetensors"),
                       ("weight_dtype", JVal.str "default")] }),
    ("6", { class_type := "UNETLoader",
            inputs := [("unet_name", JVal.str "wan2.2_i2v_low_noise_14B_fp8_scaled.safetensors"),
                       ("weight_dtype", JVal.str "default")] }),
    ("7", { class_type := "CLIPTextEncode",
            inputs := [("text", JVal.str prompt), ("clip", JVal.ref "3" 0)] }),
    ("8", { class_type := "CLIPTextEncode",
            inputs := [("text", JVal.str negative_prompt), ("clip", JVal.ref "3" 0)] }),
    ("9", { class_type := "CLIPVisionLoader",
            inputs := [("clip_name", JVal.str "sigclip_vision_patch14_384.safetensors")] }),
    ("10", { class_type := "CLIPVisionEncode",
             inputs := [("clip_vision", JVal.ref "9" 0), ("image", JVal.ref "2" 0)] }),
    ("11", { class_type := "WanImageToVideo",
             inputs := [("positive", JVal.ref "7" 0), ("negative", JVal.ref "8" 0),
                        ("vae", JVal.ref "4" 0), ("clip_vision_output", JVal.ref "10" 0),
                        ("start_image", JVal.ref "2" 0), ("width", JVal.num (width : ℚ)),
                        ("height", JVal.num (height : ℚ)), ("length", JVal.num (frames : ℚ)),
                        ("batch_size", JVal.num 1)] }),
    ("12", { class_type := "KSamplerAdvanced",
             inputs := [("model", JVal.ref "5" 0), ("add_noise", JVal.str "enable"),
                        ("noise_seed", JVal.num (seed : ℚ)), ("steps", JVal.num (steps : ℚ)),
                        ("cfg", JVal.num cfg), ("sampler_name", JVal.str "euler"),
                        ("scheduler", JVal.str "beta"), ("positive", JVal.ref "11" 0),
                        ("negative", JVal.ref "11" 1), ("latent_image", JVal.ref "11" 2),
                        ("start_at_step", JVal.num 0),
                        ("end_at_step", JVal.num (stage1_end : ℚ)),
                        ("return_with_leftover_noise", JVal.str "enable")] }),
    ("13", { class_type := "KSamplerAdvanced",
             inputs := [("model", JVal.ref "6" 0), ("add_noise", JVal.str "disable"),
                        ("noise_seed", JVal.num (seed : ℚ)), ("steps", JVal.num (steps : ℚ)),
                        ("cfg", JVal.num cfg), ("sampler_name", JVal.str "euler"),
                        ("scheduler", JVal.str "beta"), ("positive", JVal.ref "11" 0),
                        ("negative", JVal.ref "11" 1), ("latent_image", JVal.ref "12" 0),
                        ("start_at_step", JVal.num (stage2_start : ℚ)),
                        ("end_at_step", JVal.num (steps : ℚ)),
                        ("return_with_leftover_noise", JVal.str "disable")] }),
    ("14", { class_type := "VAEDecode",
             inputs := [("samples", JVal.ref "13" 0), ("vae", JVal.ref "4" 0)] }),
    ("15", { class_type := "VHS_VideoCombine",
             inputs := [("images", JVal.ref "14" 0), ("frame_rate", JVal.num 16),
                        ("loop_count", JVal.num 0),
                        ("filename_prefix", JVal.str filename_prefix),
                        ("format", JVal.str "video/h264-mp4"), ("pix_fmt", JVal.str "yuv420p"),
                        ("crf", JVal.num 19), ("save_metadata", JVal.bool true),
                        ("pingpong", JVal.bool false), ("save_output", JVal.bool true)] }) ]

/-- Embedding of `build_i2i_workflow` (generate_video.py lines 240-339): the
I2I pipeline LoadImage -> IPAdapterFaceID -> SDXL -> VAEDecode -> SaveImage. -/
def build_i2i_workflow (prompt negative_prompt image_filename : String)
    (width height steps : ℤ) (cfg : ℚ) (seed : ℤ)
    ( filename_prefix : String) : Graph :=
  [ ("1", { class_type := "LoadImage",
            inputs := [("image", JVal.str image_filename)] }),
    ("2", { class_type := "CheckpointLoaderSimple",
            inputs := [("ckpt_name", JVal.str "realvisxl_v50.safetensors")] }),
    ("3", { class_type := "IPAdapterUnifiedLoaderFaceID",
            inputs := [("model", JVal.ref "2" 0), ("preset", JVal.str "FACEID PLUS V2"),
                       ("lora_strength", JVal.num 0.85), ("provider", JVal.str "CUDA")] }),
    ("4", { class_type := "IPAdapterFaceID",
            inputs := [("model", JVal.ref "3" 0), ("ipadapter", JVal.ref "3" 1),
                       ("image", JVal.ref "1" 0), ("weight", JVal.num 0.85),
                       ("weight_faceidv2", JVal.num 0.5), ("weight_type", JVal.str "linear"),
                       ("combine_embeds", JVal.str "concat"), ("start_at", JVal.num 0.0),
                       ("end_at", JVal.num 1.0), ("embeds_scaling", JVal.str "V only")] }),
    ("5", { class_type := "CLIPTextEncode",
            inputs := [("text", JVal.str prompt), ("clip", JVal.ref "2" 1)] }),
    ("6", { class_type := "CLIPTextEncode",
            inputs := [("text", JVal.str negative_prompt), ("clip", JVal.ref "2" 1)] }),
    ("7", { class_type := "EmptyLatentImage",
            inputs := [("width", JVal.num (width : ℚ)), ("height", JVal.num (height : ℚ)),
                       ("batch_size", JVal.num 1)] }),
    ("8", { class_type := "KSampler",
            inputs := [("model", JVal.ref "4" 0), ("positive", JVal.ref "5" 0),
                       ("negative", JVal.ref "6" 0), ("latent_image", JVal.ref "7" 0),
                       ("seed", JVal.num (seed : ℚ)), ("steps", JVal.num (steps : ℚ)),
                       ("cfg", JVal.num cfg), ("sampler_name", JVal.str "euler_ancestral"),
                       ("scheduler", JVal.str "normal"), ("denoise", JVal.num 1.0)] }),
    ("9", { class_type := "VAEDecode",
            inputs := [("samples", JVal.ref "8" 0), ("vae", JVal.ref "2" 2)] }),
    ("10", { class_type := "SaveImage",
             inputs := [("images", JVal.ref "9" 0),
                        ("filename_prefix", JVal.str filename_prefix)] }) ]

/-- Association-list lookup by string key (first match), modelling Python
dict indexing. -/
def lookupKey {α : Type} (k : String) : List (String × α) → Option α
  | [] => none
  | (k2, v) :: rest => if k2 = k then some v else lookupKey k rest

/-- Value of input `key` of node `nid` in graph `g`. -/
def getInput (g : Graph) (nid key : String) : Option JVal :=
  match lookupKey nid g with
  | none => none
  | some n => lookupKey key n.inputs

/-- The `class_type` tag of node `nid` in graph `g`. -/
def getClassType (g : Graph) (nid : String) : Option String :=
  Option.map WNode.class_type (lookupKey nid g)

/-- Node identifiers of a graph, in order. -/
def ids (g : Graph) : List String := g.map Prod.fst

/-- The reference edges contributed by one node's inputs: `(src, tgt)` for
each input of `src` that is a `[tgt, slot]` reference. -/
def refsOfNode (src : String) : List (String × JVal) → List (String × String)
  | [] => []
  | (_, JVal.ref t _) :: rest => (src, t) :: refsOfNode src rest
  | _ :: rest => refsOfNode src rest

/-- All reference edges `(src, tgt)` of a graph: node `src` consumes an
output of node `tgt`. -/
def refTargets (g : Graph) : List (String × String) :=
  g.foldr (fun p acc => refsOfNode p.1 p.2.inputs ++ acc) []

/-- Node identifiers that appear as the target of at least one reference. -/
def referencedIds (g : Graph) : List String := (refTargets g).map Prod.snd

/-- Boolean list membership for strings. -/
def memB (x : String) : List String → Bool
  | [] => false
  | y :: rest => if y = x then true else memB x rest

theorem memB_iff (x : String) : ∀ l : List String, memB x l = true ↔ x ∈ l := by
  intro l
  induction l with
  | nil => simp [memB]
  | cons y rest ih =>
    by_cases h : y = x
    · subst h; simp [memB]
    · simp [memB, h, ih, Ne.symm h]

/-- A sink node: present in the graph, and no node's inputs reference any
of its outputs. -/
def isSink (g : Graph) (nid : String) : Bool :=
  memB nid (ids g) && !(memB nid (referencedIds g))

/-- Well-formed references: every reference edge targets a node identifier
present in the graph. -/
def wellRef (g : Graph) : Bool :=
  (refTargets g).all fun p => memB p.2 (ids g)

/-- Dependency edge: node `a` has an input referencing an output of `b`. -/
def hasEdge (g : Graph) (a b : String) : Prop := (a, b) ∈ refTargets g

/-- A directed cycle: a nonempty list of nodes chained by dependency edges
whose last element has an edge back to the first. -/
def IsCycle (g : Graph) : List String → Prop
  | [] => False
  | a :: l => List.Chain (hasEdge g) a l ∧ hasEdge g (l.getLastD a) a

/-- Acyclicity: no directed cycle of dependency edges exists. -/
def Acyclic (g : Graph) : Prop := ∀ l : List String, ¬ IsCycle g l

theorem chain_rank_le (g : Graph) (rank : String → ℕ)
    (hr : ∀ a b : String, hasEdge g a b → rank b < rank a) :
    ∀ (a : String) (l : List String), List.Chain (hasEdge g) a l →
      rank (l.getLastD a) ≤ rank a := by
  intro a l
  induction l generalizing a with
  | nil => intro _; exact le_refl _
  | cons b rest ih =>
    intro hchain
    rcases List.chain_cons.mp hchain with ⟨hab, hrest⟩
    calc rank ((b :: rest).getLastD a) = rank (rest.getLastD b) := by
          cases rest <;> simp [List.getLastD]
      _ ≤ rank b := ih b hrest
      _ ≤ rank a := le_of_lt (hr a b hab)

theorem acyclic_of_rank (g : Graph) (rank : String → ℕ)
    (hr : ∀ a b : String, hasEdge g a b → rank b < rank a) : Acyclic g := by
  intro l hcyc
  cases l with
  | nil => exact hcyc
  | cons a rest =>
    rcases hcyc with ⟨hchain, hback⟩
    have h1 : rank (rest.getLastD a) ≤ rank a := chain_rank_le g rank hr a rest hchain
    have h2 : rank a < rank (rest.getLastD a) := hr _ _ hback
    exact absurd (lt_of_lt_of_le h2 h1) (lt_irrefl _)

/-- Numeric rank of the node identifiers used by the builders. -/
def idRank (s : String) : ℕ :=
  if s = "1" then 1 else if s = "2" then 2 else if s = "3" then 3
  else if s = "4" then 4 else if s = "5" then 5 else if s = "6" then 6
  else if s = "7" then 7 else if s = "8" then 8 else if s = "9" then 9
  else if s = "10" then 10 else if s = "11" then 11 else if s = "12" then 12
  else if s = "13" then 13 else if s = "14" then 14 else if s = "15" then 15
  else 0

/-- Decidable acyclicity certificate: every reference edge goes from a
higher-ranked node to a strictly lower-ranked one. -/
def edgesDecreasing (g : Graph) : Bool :=
  (refTargets g).all fun p => decide (idRank p.2 < idRank p.1)

theorem acyclic_of_decreasing (g : Graph) (h : edgesDecreasing g = true) : Acyclic g := by
  apply acyclic_of_rank g idRank
  intro a b hab
  have := List.all_eq_true.mp h (a, b) hab
  exact of_decide_eq_true this

/-- Generation mode. -/
inductive Mode : Type
  | t2v
  | i2v
  | i2i
deriving DecidableEq

/-- The argparse-produced argument record of `main` (generate_video.py lines
547-576), restricted to the fields the defaulting logic touches. `none`
models the argparse default `None` for steps / negative / seed; width,
height, frames and cfg carry the global defaults 480, 320, 100 and 1.0
directly, exactly as argparse does. -/
structure CliArgs : Type where
  negative : Option String
  width : ℤ
  height : ℤ
  frames : ℤ
  steps : Option ℤ
  cfg : ℚ
deriving DecidableEq

/-- Embedding of the mode-specific defaulting block of `main`
(generate_video.py lines 596-617). Each branch rewrites exactly the fields
still holding the global default sentinel (480 / 320 / `None` / 1.0). -/
def applyModeDefaults (m : Mode) (a : CliArgs) : CliArgs :=
  match m with
  | Mode.i2i =>
    { a with
      width := if a.width = 480 then 1024 else a.width,
      height := if a.height = 320 then 1024 else a.height,
      steps := match a.steps with | none => some 25 | some s => some s,
      cfg := if a.cfg = 1 then 7 else a.cfg,
      negative := match a.negative with | none => some i2i_default_negative | some n => some n }
  | Mode.i2v =>
    { a with
      steps := match a.steps with | none => some 20 | some s => some s,
      negative := match a.negative with | none => some i2v_default_negative | some n => some n }
  | Mode.t2v =>
    { a with
      steps := match a.steps with | none => some 8 | some s => some s,
      negative := match a.negative with | none => some t2v_default_negative | some n => some n }

/-- Python `s.endswith(suffix)` on our character-list view of strings. -/
def endswithB (s suffix : String) : Bool := List.isSuffixOf suffix.data s.data

/-- Characters after the last '/' of a string, modelling POSIX
`os.path.basename`. -/
def basenameChars (l : List Char) : List Char :=
  (l.reverse.takeWhile fun c => c != '/').reverse

/-- Embedding of the output normalisation of `main` (generate_video.py lines
619-623): take the basename of the output argument, then drop the last four
characters when the name ends in ".mp4" or ".png" (Python slice `[:-4]`). -/
def resolveOutputName (s : String) : String :=
  if endswithB (String.mk (basenameChars s.data)) ".mp4" ||
      endswithB (String.mk (basenameChars s.data)) ".png" then
    String.mk ((basenameChars s.data).take ((basenameChars s.data).length - 4))
  else String.mk (basenameChars s.data)

/-- Serialisation of one input value. Numeric rendering is a fixed function
of the rational value; it abstracts Python's float repr but, being a
function, cannot introduce nondeterminism. -/
def serializeJVal : JVal → String
  | JVal.str s => "\"" ++ s ++ "\""
  | JVal.num q => toString q
  | JVal.bool b => if b then "true" else "false"
  | JVal.ref n i => "[\"" ++ n ++ "\", " ++ toString i ++ "]"

/-- Serialisation of one node in dict-literal order. -/
def serializeNode (n : WNode) : String :=
  "\x7b\"class_type\": \"" ++ n.class_type ++ "\", \"inputs\": \x7b" ++
    String.intercalate ", " (n.inputs.map fun p => "\"" ++ p.1 ++ "\": " ++ serializeJVal p.2) ++
    "\x7d\x7d"

/-- Serialisation of the full submission payload, modelling
`json.dumps(\x7b"prompt": workflow\x7d)` from `queue_prompt`
(generate_video.py line 433). -/
def serializeGraph (g : Graph) : String :=
  "\x7b\"prompt\": \x7b" ++
    String.intercalate ", " (g.map fun p => "\"" ++ p.1 ++ "\": " ++ serializeNode p.2) ++
    "\x7d\x7d"

/-- One history record for a job, flattening the JSON shape used by
`wait_for_completion`: the `outputs` mapping (node-id to produced artifact
data) and the `status` object's `status_str` and `messages` fields. -/
structure HistEntry : Type where
  outputs : List (String × String)
  status_str : Option String
  messages : List String
deriving DecidableEq

/-- Queue endpoint response: running and pending job lists. Used only for
the printed progress line, never for the termination decision. -/
structure QueueInfo : Type where
  queue_running : List String
  queue_pending : List String
deriving DecidableEq

/-- Raw result of one HTTP query: `err` models any exception raised inside
`urllib.request.urlopen` / `json.loads` (network error, malformed
response), `ok` a parsed response body. -/
inductive QueryResp (α : Type) : Type
  | err
  | ok (val : α)
deriving DecidableEq

/-- Observations available to one iteration of the polling loop: the elapsed
wall-clock seconds measured at the top of the iteration, and the raw results
of the two HTTP queries of that iteration. -/
structure IterInput : Type where
  elapsed : ℕ
  histResp : QueryResp (List (String × HistEntry))
  queueResp : QueryResp QueueInfo
deriving DecidableEq

/-- Embedding of `get_history` (generate_video.py lines 451-457): any
exception from the query is swallowed and an empty dict is returned. -/
def get_history (r : QueryResp (List (String × HistEntry))) : List (String × HistEntry) :=
  match r with
  | QueryResp.ok d => d
  | QueryResp.err => []

/-- Embedding of `get_queue` (generate_video.py lines 460-466): any
exception from the query is swallowed and an empty dict is returned, which
yields empty running and pending lists in the loop body. -/
def get_queue (r : QueryResp QueueInfo) : QueueInfo :=
  match r with
  | QueryResp.ok q => q
  | QueryResp.err => ⟨[], []⟩

/-- Which exit of `wait_for_completion` fired. The three exits are
observably distinct in the printed output ("Execution failed" with the
diagnostic messages, "Completed", "Timeout!"). -/
inductive ExitKind : Type
  | failure (messages : List String)
  | success (outputs : List (String × String))
  | timeout
deriving DecidableEq

/-- Accounting of one run of the polling loop over a finite observation
trace: how many history queries, queue queries and sleeps were performed,
and which exit fired (`none` when the trace was exhausted with the loop
still running). -/
structure PollTrace : Type where
  histQueries : ℕ
  queueQueries : ℕ
  sleeps : ℕ
  result : Option ExitKind
deriving DecidableEq

/-- One iteration of the loop of `wait_for_completion` (generate_video.py
lines 474-514), given the accounting `t` of the remaining iterations.
Mirrors the body in order: query history; if the job's entry reports status
"error", exit with the messages (before any queue query, timeout check or
sleep); if it has non-empty outputs, exit with them; otherwise query the
queue for the progress line, exit with Timeout when elapsed exceeds the
timeout, else sleep 2 seconds and continue with the rest of the loop. -/
def waitIter (pid : String) (timeout : ℕ) (it : IterInput) (t : PollTrace) : PollTrace :=
  let cont : PollTrace :=
    if timeout < it.elapsed then ⟨1, 1, 0, some ExitKind.timeout⟩
    else ⟨t.histQueries + 1, t.queueQueries + 1, t.sleeps + 1, t.result⟩
  match lookupKey pid (get_history it.histResp) with
  | some e =>
    if e.status_str = some "error" then
      ⟨1, 0, 0, some (ExitKind.failure e.messages)⟩
    else if e.outputs.isEmpty = false then
      ⟨1, 0, 0, some (ExitKind.success e.outputs)⟩
    else cont
  | none => cont

/-- Embedding of the whole polling loop of `wait_for_completion` over a
finite observation trace, one `IterInput` per iteration. -/
def waitLoop (pid : String) (timeout : ℕ) : List IterInput → PollTrace
  | [] => ⟨0, 0, 0, none⟩
  | it :: rest => waitIter pid timeout it (waitLoop pid timeout rest)

/-- The Python return value of each exit: `None` on failure (line 489), the
outputs dict on success (line 493), `None` on timeout (line 512). -/
def exitReturnValue : ExitKind → Option (List (String × String))
  | ExitKind.failure _ => none
  | ExitKind.success o => some o
  | ExitKind.timeout => none

/-- Return value of `wait_for_completion` on a finite observation trace:
the outer `none` means the trace ended with the loop still polling. -/
def wait_for_completion (pid : String) (timeout : ℕ) (trace : List IterInput) :
    Option (Option (List (String × String))) :=
  Option.map exitReturnValue (waitLoop pid timeout trace).result

/-- Whether one iteration's history observation is terminal for job `pid`:
the entry exists and reports status "error" or non-empty outputs. -/
def terminalAt (pid : String) (it : IterInput) : Bool :=
  match lookupKey pid (get_history it.histResp) with
  | none => false
  | some e => decide (e.status_str = some "error") || decide (e.outputs.isEmpty = false)

theorem waitIter_cont (pid : String) (timeout : ℕ) (it : IterInput) (t : PollTrace)
    (hnt : terminalAt pid it = false) (hel : it.elapsed ≤ timeout) :
    waitIter pid timeout it t =
      ⟨t.histQueries + 1, t.queueQueries + 1, t.sleeps + 1, t.result⟩ := by
  have hto : ¬ timeout < it.elapsed := not_lt.mpr hel
  unfold waitIter
  unfold terminalAt at hnt
  cases hE : lookupKey pid (get_history it.histResp) with
  | none => simp [hE, hto]
  | some e =>
    rw [hE] at hnt
    simp only [Bool.or_eq_false_iff] at hnt
    rcases hnt with ⟨h1, h2⟩
    have h1' : ¬ e.status_str = some "error" := of_decide_eq_false h1
    have h2' : ¬ e.outputs.isEmpty = false := of_decide_eq_false h2
    simp [hE, h1', h2', hto]

theorem waitLoop_cont (pid : String) (timeout : ℕ) (it : IterInput)
    (rest : List IterInput) (hnt : terminalAt pid it = false)
    (hel : it.elapsed ≤ timeout) :
    waitLoop pid timeout (it :: rest) =
      ⟨(waitLoop pid timeout rest).histQueries + 1,
       (waitLoop pid timeout rest).queueQueries + 1,
       (waitLoop pid timeout rest).sleeps + 1,
       (waitLoop pid timeout rest).result⟩ :=
  waitIter_cont pid timeout it (waitLoop pid timeout rest) hnt hel

theorem waitIter_result_cases (pid : String) (timeout : ℕ) (it : IterInput)
    (t : PollTrace) (r : ExitKind)
    (h : (waitIter pid timeout it t).result = some r) :
    (∃ e, lookupKey pid (get_history it.histResp) = some e ∧
       e.status_str = some "error" ∧ r = ExitKind.failure e.messages) ∨
    (∃ e, lookupKey pid (get_history it.histResp) = some e ∧
       e.outputs.isEmpty = false ∧ r = ExitKind.success e.outputs) ∨
    (timeout < it.elapsed ∧ r = ExitKind.timeout) ∨
    t.result = some r := by
  unfold waitIter at h
  cases hE : lookupKey pid (get_history it.histResp) with
  | none =>
    rw [hE] at h
    by_cases hto : timeout < it.elapsed
    · simp only [hto, if_true] at h
      exact Or.inr (Or.inr (Or.inl ⟨hto, (Option.some.inj h).symm⟩))
    · simp only [hto, if_false] at h
      exact Or.inr (Or.inr (Or.inr h))
  | some e =>
    rw [hE] at h
    by_cases hs : e.status_str = some "error"
    · simp only [hs, if_pos] at h
      exact Or.inl ⟨e, rfl, hs, (Option.some.inj h).symm⟩
    · simp only [if_neg hs] at h
      by_cases ho : e.outputs.isEmpty = false
      · simp only [ho, if_pos] at h
        exact Or.inr (Or.inl ⟨e, rfl, ho, (Option.some.inj h).symm⟩)
      · simp only [if_neg ho] at h
        by_cases hto : timeout < it.elapsed
        · simp only [hto, if_true] at h
          exact Or.inr (Or.inr (Or.inl ⟨hto, (Option.some.inj h).symm⟩))
        · simp only [hto, if_false] at h
          exact Or.inr (Or.inr (Or.inr h))

theorem waitLoop_failure_mem (pid : String) (timeout : ℕ) :
    ∀ (trace : List IterInput) (m : List String),
      (waitLoop pid timeout trace).result = some (ExitKind.failure m) →
      ∃ it ∈ trace, ∃ e, lookupKey pid (get_history it.histResp) = some e ∧
        e.status_str = some "error" ∧ e.messages = m := by
  intro trace
  induction trace with
  | nil => intro m h; exact absurd h (by simp [waitLoop])
  | cons it rest ih =>
    intro m h
    rcases waitIter_result_cases pid timeout it (waitLoop pid timeout rest) _ h with
      h1 | h2 | h3 | h4
    · rcases h1 with ⟨e, hE, hs, hr⟩
      exact ⟨it, List.mem_cons_self it rest, e, hE, hs, (ExitKind.failure.inj hr).symm⟩
    · rcases h2 with ⟨e, _, _, hr⟩; exact absurd hr (by intro hc; cases hc)
    · rcases h3 with ⟨_, hr⟩; exact absurd hr (by intro hc; cases hc)
    · rcases ih m h4 with ⟨it2, hmem, e, hE, hs, hm⟩
      exact ⟨it2, List.mem_cons_of_mem it hmem, e, hE, hs, hm⟩

theorem waitLoop_success_mem (pid : String) (timeout : ℕ) :
    ∀ (trace : List IterInput) (o : List (String × String)),
      (waitLoop pid timeout trace).result = some (ExitKind.success o) →
      ∃ it ∈ trace, ∃ e, lookupKey pid (get_history it.histResp) = some e ∧
        e.outputs = o ∧ e.outputs.isEmpty = false := by
  intro trace
  induction trace with
  | nil => intro o h; exact absurd h (by simp [waitLoop])
  | cons it rest ih =>
    intro o h
    rcases waitIter_result_cases pid timeout it (waitLoop pid timeout rest) _ h with
      h1 | h2 | h3 | h4
    · rcases h1 with ⟨e, _, _, hr⟩; exact absurd hr (by intro hc; cases hc)
    · rcases h2 with ⟨e, hE, ho, hr⟩
      exact ⟨it, List.mem_cons_self it rest, e, hE, (ExitKind.success.inj hr).symm, ho⟩
    · rcases h3 with ⟨_, hr⟩; exact absurd hr (by intro hc; cases hc)
    · rcases ih o h4 with ⟨it2, hmem, e, hE, ho, hne⟩
      exact ⟨it2, List.mem_cons_of_mem it hmem, e, hE, ho, hne⟩

theorem waitLoop_timeout_mem (pid : String) (timeout : ℕ) :
    ∀ trace : List IterInput,
      (waitLoop pid timeout trace).result = some ExitKind.timeout →
      ∃ it ∈ trace, timeout < it.elapsed := by
  intro trace
  induction trace with
  | nil => intro h; exact absurd h (by simp [waitLoop])
  | cons it rest ih =>
    intro h
    rcases waitIter_result_cases pid timeout it (waitLoop pid timeout rest) _ h with
      h1 | h2 | h3 | h4
    · rcases h1 with ⟨e, _, _, hr⟩; exact absurd hr (by intro hc; cases hc)
    · rcases h2 with ⟨e, _, _, hr⟩; exact absurd hr (by intro hc; cases hc)
    · exact ⟨it, List.mem_cons_self it rest, h3.1⟩
    · rcases ih h4 with ⟨it2, hmem, hto⟩
      exact ⟨it2, List.mem_cons_of_mem it hmem, hto⟩


/-- Claim C3: on the first iteration whose history query reports a terminal
status of "error" for the job identifier, the poller exits with Failure
carrying the reported diagnostic messages immediately: after `pre` earlier
non-terminal, non-timed-out iterations, the run performs exactly
`pre.length + 1` history queries, `pre.length` queue queries and
`pre.length` sleeps — none after the error iteration — and its result is
the Failure exit with the entry's messages. -/
theorem error_status_stops_polling (pid : String) (timeout : ℕ)
    (pre rest : List IterInput) (it : IterInput) (e : HistEntry)
    (hpre : ∀ j ∈ pre, terminalAt pid j = false ∧ j.elapsed ≤ timeout)
    (hhist : lookupKey pid (get_history it.histResp) = some e)
    (herr : e.status_str = some "error") :
    waitLoop pid timeout (pre ++ it :: rest) =
      ⟨pre.length + 1, pre.length, pre.length, some (ExitKind.failure e.messages)⟩ := by
  induction pre with
  | nil =>
    show waitIter pid timeout it (waitLoop pid timeout rest) = _
    unfold waitIter
    rw [hhist]
    simp [herr]
  | cons j pre' ih =>
    have hj := hpre j (List.mem_cons_self j pre')
    have hpre' : ∀ x ∈ pre', terminalAt pid x = false ∧ x.elapsed ≤ timeout :=
      fun x hx => hpre x (List.mem_cons_of_mem j hx)
    have hstep := waitLoop_cont pid timeout j (pre' ++ it :: rest) hj.1 hj.2
    have hih := ih hpre'
    rw [List.cons_append, hstep, hih]
    simp [Nat.add_comm, Nat.add_assoc, Nat.add_left_comm]

/-- Witness for C3 at a concrete run: one quiet iteration, then an error
iteration, then a further (never reached) trace element. -/
theorem error_status_stops_polling_witness :
    waitLoop "job" 900
        ([(⟨2, QueryResp.ok [], QueryResp.ok ⟨["r1"], []⟩⟩ : IterInput)] ++
          (⟨4, QueryResp.ok [("job", ⟨[], some "error", ["boom"]⟩)],
            QueryResp.err⟩ : IterInput) ::
          [(⟨6, QueryResp.err, QueryResp.err⟩ : IterInput)]) =
      ⟨2, 1, 1, some (ExitKind.failure ["boom"])⟩ :=
  error_status_stops_polling "job" 900
    [⟨2, QueryResp.ok [], QueryResp.ok ⟨["r1"], []⟩⟩]
    [⟨6, QueryResp.err, QueryResp.err⟩]
    ⟨4, QueryResp.ok [("job", ⟨[], some "error", ["boom"]⟩)], QueryResp.err⟩
    ⟨[], some "error", ["boom"]⟩
    (by decide) rfl rfl

/-- Claim C4: a transient query failure never terminates the loop — an
iteration whose history and queue queries both fail and whose elapsed time
is within the timeout leaves the loop's outcome exactly that of the
remaining iterations; and the only exits are an observed terminal "error"
status, observed non-empty outputs, or the elapsed-time-exceeds-timeout
check. -/
theorem transient_failures_continue :
    (∀ (pid : String) (timeout : ℕ) (it : IterInput) (rest : List IterInput),
        it.histResp = QueryResp.err → it.queueResp = QueryResp.err →
        it.elapsed ≤ timeout →
        (waitLoop pid timeout (it :: rest)).result =
          (waitLoop pid timeout rest).result) ∧
    (∀ (pid : String) (timeout : ℕ) (trace : List IterInput) (m : List String),
        (waitLoop pid timeout trace).result = some (ExitKind.failure m) →
        ∃ it ∈ trace, ∃ e, lookupKey pid (get_history it.histResp) = some e ∧
          e.status_str = some "error" ∧ e.messages = m) ∧
    (∀ (pid : String) (timeout : ℕ) (trace : List IterInput)
        (o : List (String × String)),
        (waitLoop pid timeout trace).result = some (ExitKind.success o) →
        ∃ it ∈ trace, ∃ e, lookupKey pid (get_history it.histResp) = some e ∧
          e.outputs = o ∧ e.outputs.isEmpty = false) ∧
    (∀ (pid : String) (timeout : ℕ) (trace : List IterInput),
        (waitLoop pid timeout trace).result = some ExitKind.timeout →
        ∃ it ∈ trace, timeout < it.elapsed) := by
  refine ⟨?_, waitLoop_failure_mem, waitLoop_success_mem, waitLoop_timeout_mem⟩
  intro pid timeout it rest hh _ hel
  have hnt : terminalAt pid it = false := by
    unfold terminalAt
    rw [hh]
    rfl
  rw [waitLoop_cont pid timeout it rest hnt hel]

/-- Witness for C4 at concrete runs: a both-queries-failed iteration within
the deadline continues into the rest of the trace, and a concrete
timeout exit indeed stems from an iteration past the deadline. -/
theorem transient_failures_continue_witness :
    (waitLoop "job" 900 [(⟨10, QueryResp.err, QueryResp.err⟩ : IterInput)]).result =
      (waitLoop "job" 900 []).result ∧
    ∃ it ∈ [(⟨901, QueryResp.err, QueryResp.err⟩ : IterInput)], 900 < it.elapsed :=
  ⟨transient_failures_continue.1 "job" 900 ⟨10, QueryResp.err, QueryResp.err⟩ []
      rfl rfl (by decide),
   transient_failures_continue.2.2.2 "job" 900
      [⟨901, QueryResp.err, QueryResp.err⟩] (by decide)⟩

/-- Claim C9: the poller never exits with Timeout on an iteration whose
history query already shows a terminal entry (status "error" or non-empty
outputs): that iteration exits with the corresponding Failure or Success,
with no condition on elapsed time — in particular even when the deadline
has already passed. -/
theorem terminal_beats_timeout (pid : String) (timeout : ℕ) (it : IterInput)
    (rest : List IterInput) (e : HistEntry)
    (hhist : lookupKey pid (get_history it.histResp) = some e)
    (hterm : e.status_str = some "error" ∨ e.outputs.isEmpty = false) :
    (waitLoop pid timeout (it :: rest)).result ≠ some ExitKind.timeout ∧
      ((waitLoop pid timeout (it :: rest)).result =
          some (ExitKind.failure e.messages) ∨
        (waitLoop pid timeout (it :: rest)).result =
          some (ExitKind.success e.outputs)) := by
  have hcons : waitLoop pid timeout (it :: rest) =
      waitIter pid timeout it (waitLoop pid timeout rest) := rfl
  rw [hcons]
  unfold waitIter
  rw [hhist]
  by_cases hs : e.status_str = some "error"
  · constructor
    · simp [hs]
    · left; simp [hs]
  · rcases hterm with h | h
    · exact absurd h hs
    · constructor
      · simp [hs, h]
      · right; simp [hs, h]

/-- Witness for C9 at a concrete run whose elapsed time (5000s) is far past
the 900s timeout yet whose history entry reports an error: the exit is
Failure, not Timeout. -/
theorem terminal_beats_timeout_witness :
    (waitLoop "job" 900
        [(⟨5000, QueryResp.ok [("job", ⟨[], some "error", ["boom"]⟩)],
           QueryResp.err⟩ : IterInput)]).result ≠ some ExitKind.timeout ∧
      ((waitLoop "job" 900
          [(⟨5000, QueryResp.ok [("job", ⟨[], some "error", ["boom"]⟩)],
             QueryResp.err⟩ : IterInput)]).result =
          some (ExitKind.failure ["boom"]) ∨
        (waitLoop "job" 900
          [(⟨5000, QueryResp.ok [("job", ⟨[], some "error", ["boom"]⟩)],
             QueryResp.err⟩ : IterInput)]).result =
          some (ExitKind.success [])) :=
  terminal_beats_timeout "job" 900
    ⟨5000, QueryResp.ok [("job", ⟨[], some "error", ["boom"]⟩)], QueryResp.err⟩
    [] ⟨[], some "error", ["boom"]⟩ rfl (Or.inl rfl)

/-- Counterexample to claim C5 as stated: `wait_for_completion` returns the
same value (`None`, the inner `none`) for a run that exits with a reported
execution error and for a run that exits with a timeout, so a caller cannot
tell the two apart from the returned value. -/
theorem failure_timeout_same_return :
    (waitLoop "job" 900
        [(⟨3, QueryResp.ok [("job", ⟨[], some "error", ["boom"]⟩)],
           QueryResp.err⟩ : IterInput)]).result =
      some (ExitKind.failure ["boom"]) ∧
    (waitLoop "job" 900 [(⟨901, QueryResp.err, QueryResp.err⟩ : IterInput)]).result =
      some ExitKind.timeout ∧
    wait_for_completion "job" 900
        [(⟨3, QueryResp.ok [("job", ⟨[], some "error", ["boom"]⟩)],
           QueryResp.err⟩ : IterInput)] =
      wait_for_completion "job" 900
        [(⟨901, QueryResp.err, QueryResp.err⟩ : IterInput)] :=
  ⟨rfl, rfl, rfl⟩

/-- Claim C5 as amended: the three exits are distinct in the loop's
observable behaviour (the `ExitKind`), but the Python return value maps
both Failure and Timeout to `None`; the returned value distinguishes only
Success (the outputs dict) from non-success (`None`). -/
theorem return_value_distinguishes_only_success :
    (∀ m : List String, exitReturnValue (ExitKind.failure m) = none) ∧
    exitReturnValue ExitKind.timeout = none ∧
    (∀ o : List (String × String), exitReturnValue (ExitKind.success o) = some o) ∧
    (∀ (pid : String) (timeout : ℕ) (trace : List IterInput)
        (o : List (String × String)),
        wait_for_completion pid timeout trace = some (some o) →
        (waitLoop pid timeout trace).result = some (ExitKind.success o)) := by
  refine ⟨fun _ => rfl, rfl, fun _ => rfl, ?_⟩
  intro pid timeout trace o h
  unfold wait_for_completion at h
  cases hr : (waitLoop pid timeout trace).result with
  | none => rw [hr] at h; exact Option.noConfusion h
  | some r =>
    rw [hr] at h
    cases r with
    | failure m => exact Option.noConfusion (Option.some.inj h)
    | success o2 =>
      have ho : o2 = o := Option.some.inj (Option.some.inj h)
      rw [ho]
    | timeout => exact Option.noConfusion (Option.some.inj h)

/-- Witness for the amended C5 at a concrete successful run: a Some-valued
return implies the Success exit. -/
theorem return_value_distinguishes_only_success_witness :
    (waitLoop "job" 900
        [(⟨3, QueryResp.ok [("job", ⟨[("15", "out.mp4")], none, []⟩)],
           QueryResp.err⟩ : IterInput)]).result =
      some (ExitKind.success [("15", "out.mp4")]) :=
  return_value_distinguishes_only_success.2.2.2 "job" 900
    [⟨3, QueryResp.ok [("job", ⟨[("15", "out.mp4")], none, []⟩)], QueryResp.err⟩]
    [("15", "out.mp4")] rfl

/-- Claim C1: for every generation request, each of the three builders
produces a graph that is acyclic and in which every `[node-id, slot-index]`
input reference names a node identifier present in that same graph. -/
theorem builders_acyclic_wellformed :
    (∀ (p n fp : String) (w h f s sd : ℤ) (c : ℚ),
        Acyclic (build_workflow p n w h f s c sd fp) ∧
        wellRef (build_workflow p n w h f s c sd fp) = true) ∧
    (∀ (p n im fp : String) (w h f s sd : ℤ) (c : ℚ),
        Acyclic (build_i2v_workflow p n im w h f s c sd fp) ∧
        wellRef (build_i2v_workflow p n im w h f s c sd fp) = true) ∧
    (∀ (p n im fp : String) (w h s sd : ℤ) (c : ℚ),
        Acyclic (build_i2i_workflow p n im w h s c sd fp) ∧
        wellRef (build_i2i_workflow p n im w h s c sd fp) = true) :=
  ⟨fun _ _ _ _ _ _ _ _ _ => ⟨acyclic_of_decreasing _ rfl, rfl⟩,
   fun _ _ _ _ _ _ _ _ _ _ => ⟨acyclic_of_decreasing _ rfl, rfl⟩,
   fun _ _ _ _ _ _ _ _ _ => ⟨acyclic_of_decreasing _ rfl, rfl⟩⟩

/-- Claim C2: in the I2V graph the first sampler (node "12") runs steps
`[0, steps // 2)` on the high-noise model with noise added and leftover
noise returned, and the second sampler (node "13") runs steps
`[steps // 2, steps)` on the low-noise model with no added noise, taking
node "12"'s output latent as input; in particular for steps = 20 the split
is at 10 and for steps = 7 at 3. -/
theorem i2v_two_stage_split :
    (∀ (p n im fp : String) (w h f steps sd : ℤ) (c : ℚ),
      getInput (build_i2v_workflow p n im w h f steps c sd fp) "12" "start_at_step" =
        some (JVal.num 0) ∧
      getInput (build_i2v_workflow p n im w h f steps c sd fp) "12" "end_at_step" =
        some (JVal.num ((Int.fdiv steps 2 : ℤ) : ℚ)) ∧
      getInput (build_i2v_workflow p n im w h f steps c sd fp) "12" "add_noise" =
        some (JVal.str "enable") ∧
      getInput (build_i2v_workflow p n im w h f steps c sd fp) "12"
          "return_with_leftover_noise" = some (JVal.str "enable") ∧
      getInput (build_i2v_workflow p n im w h f steps c sd fp) "12" "model" =
        some (JVal.ref "5" 0) ∧
      getInput (build_i2v_workflow p n im w h f steps c sd fp) "5" "unet_name" =
        some (JVal.str "wan2.2_i2v_high_noise_14B_fp8_scaled.safetensors") ∧
      getInput (build_i2v_workflow p n im w h f steps c sd fp) "13" "start_at_step" =
        some (JVal.num ((Int.fdiv steps 2 : ℤ) : ℚ)) ∧
      getInput (build_i2v_workflow p n im w h f steps c sd fp) "13" "end_at_step" =
        some (JVal.num (steps : ℚ)) ∧
      getInput (build_i2v_workflow p n im w h f steps c sd fp) "13" "add_noise" =
        some (JVal.str "disable") ∧
      getInput (build_i2v_workflow p n im w h f steps c sd fp) "13"
          "return_with_leftover_noise" = some (JVal.str "disable") ∧
      getInput (build_i2v_workflow p n im w h f steps c sd fp) "13" "model" =
        some (JVal.ref "6" 0) ∧
      getInput (build_i2v_workflow p n im w h f steps c sd fp) "6" "unet_name" =
        some (JVal.str "wan2.2_i2v_low_noise_14B_fp8_scaled.safetensors") ∧
      getInput (build_i2v_workflow p n im w h f steps c sd fp) "13" "latent_image" =
        some (JVal.ref "12" 0)) ∧
    getInput (build_i2v_workflow "p" "n" "im" 480 320 81 20 1 0 "out") "12"
        "end_at_step" = some (JVal.num 10) ∧
    getInput (build_i2v_workflow "p" "n" "im" 480 320 81 7 1 0 "out") "13"
        "start_at_step" = some (JVal.num 3) :=
  ⟨fun _ _ _ _ _ _ _ _ _ _ =>
    ⟨rfl, rfl, rfl, rfl, rfl, rfl, rfl, rfl, rfl, rfl, rfl, rfl, rfl⟩,
   by decide, by decide⟩

/-- Claim C8: each builder is a pure function of its arguments (including
the seed), so two invocations on the same request yield equal graphs and
byte-for-byte identical serialized payloads. -/
theorem builders_deterministic :
    (∀ (p n fp : String) (w h f s sd : ℤ) (c : ℚ),
        build_workflow p n w h f s c sd fp = build_workflow p n w h f s c sd fp ∧
        serializeGraph (build_workflow p n w h f s c sd fp) =
          serializeGraph (build_workflow p n w h f s c sd fp)) ∧
    (∀ (p n im fp : String) (w h f s sd : ℤ) (c : ℚ),
        build_i2v_workflow p n im w h f s c sd fp =
          build_i2v_workflow p n im w h f s c sd fp ∧
        serializeGraph (build_i2v_workflow p n im w h f s c sd fp) =
          serializeGraph (build_i2v_workflow p n im w h f s c sd fp)) ∧
    (∀ (p n im fp : String) (w h s sd : ℤ) (c : ℚ),
        build_i2i_workflow p n im w h s c sd fp =
          build_i2i_workflow p n im w h s c sd fp ∧
        serializeGraph (build_i2i_workflow p n im w h s c sd fp) =
          serializeGraph (build_i2i_workflow p n im w h s c sd fp)) :=
  ⟨fun _ _ _ _ _ _ _ _ _ => ⟨rfl, rfl⟩,
   fun _ _ _ _ _ _ _ _ _ _ => ⟨rfl, rfl⟩,
   fun _ _ _ _ _ _ _ _ _ => ⟨rfl, rfl⟩⟩

/-- Claim C6: I2I default resolution rewrites exactly the fields still
holding the global default sentinel — width 480 becomes 1024, height 320
becomes 1024, unset steps becomes 25, cfg 1.0 becomes 7.0, and an unset
negative prompt becomes the I2I default string — overriding even a
user-supplied value equal to the sentinel, while any other value is kept. -/
theorem i2i_default_overrides (a : CliArgs) :
    (a.width = 480 → (applyModeDefaults Mode.i2i a).width = 1024) ∧
    (a.width ≠ 480 → (applyModeDefaults Mode.i2i a).width = a.width) ∧
    (a.height = 320 → (applyModeDefaults Mode.i2i a).height = 1024) ∧
    (a.height ≠ 320 → (applyModeDefaults Mode.i2i a).height = a.height) ∧
    (a.steps = none → (applyModeDefaults Mode.i2i a).steps = some 25) ∧
    (∀ s : ℤ, a.steps = some s → (applyModeDefaults Mode.i2i a).steps = some s) ∧
    (a.cfg = 1 → (applyModeDefaults Mode.i2i a).cfg = 7) ∧
    (a.cfg ≠ 1 → (applyModeDefaults Mode.i2i a).cfg = a.cfg) ∧
    (a.negative = none →
      (applyModeDefaults Mode.i2i a).negative = some i2i_default_negative) ∧
    (∀ n : String, a.negative = some n →
      (applyModeDefaults Mode.i2i a).negative = some n) := by
  refine ⟨fun hw => ?_, fun hw => ?_, fun hh => ?_, fun hh => ?_, fun hs => ?_,
    fun s hs => ?_, fun hc => ?_, fun hc => ?_, fun hn => ?_, fun n hn => ?_⟩ <;>
    simp [applyModeDefaults, *]

/-- Witness for C6: a record holding every sentinel (including an explicit
width 480 / height 320 / cfg 1) is fully overridden, and a record with
non-sentinel values everywhere is kept unchanged. -/
theorem i2i_default_overrides_witness :
    (applyModeDefaults Mode.i2i (⟨none, 480, 320, 100, none, 1⟩ : CliArgs)).width = 1024 ∧
    (applyModeDefaults Mode.i2i (⟨none, 480, 320, 100, none, 1⟩ : CliArgs)).height = 1024 ∧
    (applyModeDefaults Mode.i2i (⟨none, 480, 320, 100, none, 1⟩ : CliArgs)).steps = some 25 ∧
    (applyModeDefaults Mode.i2i (⟨none, 480, 320, 100, none, 1⟩ : CliArgs)).cfg = 7 ∧
    (applyModeDefaults Mode.i2i (⟨none, 480, 320, 100, none, 1⟩ : CliArgs)).negative =
      some i2i_default_negative ∧
    (applyModeDefaults Mode.i2i
        (⟨some "custom neg", 512, 768, 50, some 30, 3⟩ : CliArgs)).width = 512 ∧
    (applyModeDefaults Mode.i2i
        (⟨some "custom neg", 512, 768, 50, some 30, 3⟩ : CliArgs)).height = 768 ∧
    (applyModeDefaults Mode.i2i
        (⟨some "custom neg", 512, 768, 50, some 30, 3⟩ : CliArgs)).steps = some 30 ∧
    (applyModeDefaults Mode.i2i
        (⟨some "custom neg", 512, 768, 50, some 30, 3⟩ : CliArgs)).cfg = 3 ∧
    (applyModeDefaults Mode.i2i
        (⟨some "custom neg", 512, 768, 50, some 30, 3⟩ : CliArgs)).negative =
      some "custom neg" :=
  ⟨(i2i_default_overrides _).1 rfl,
   (i2i_default_overrides _).2.2.1 rfl,
   (i2i_default_overrides _).2.2.2.2.1 rfl,
   (i2i_default_overrides _).2.2.2.2.2.2.1 rfl,
   (i2i_default_overrides _).2.2.2.2.2.2.2.2.1 rfl,
   (i2i_default_overrides _).2.1 (by decide),
   (i2i_default_overrides _).2.2.2.1 (by decide),
   (i2i_default_overrides _).2.2.2.2.2.1 30 rfl,
   (i2i_default_overrides _).2.2.2.2.2.2.2.1 (by decide),
   (i2i_default_overrides _).2.2.2.2.2.2.2.2.2 "custom neg" rfl⟩

/-- Claim C7: a T2V request with width 480, height 320, frames 100 and
steps unset resolves to steps 8 and the T2V default negative prompt, and
the T2V graph has exactly 8 nodes, node "8" is the video-encode
(VHS_VideoCombine) node, and it is the unique sink: the only node whose
output is referenced by no other node's inputs. -/
theorem t2v_scenario :
    (applyModeDefaults Mode.t2v (⟨none, 480, 320, 100, none, 1⟩ : CliArgs)).steps =
      some 8 ∧
    (applyModeDefaults Mode.t2v (⟨none, 480, 320, 100, none, 1⟩ : CliArgs)).negative =
      some t2v_default_negative ∧
    ∀ (p n fp : String) (w h f s sd : ℤ) (c : ℚ),
      (build_workflow p n w h f s c sd fp).length = 8 ∧
      getClassType (build_workflow p n w h f s c sd fp) "8" =
        some "VHS_VideoCombine" ∧
      isSink (build_workflow p n w h f s c sd fp) "8" = true ∧
      ∀ m : String, isSink (build_workflow p n w h f s c sd fp) m = true → m = "8" := by
  refine ⟨rfl, rfl, fun p n fp w h f s sd c => ⟨rfl, rfl, rfl, ?_⟩⟩
  intro m hm
  unfold isSink at hm
  rw [Bool.and_eq_true] at hm
  rcases hm with ⟨h1, h2⟩
  have hmem : m ∈ ids (build_workflow p n w h f s c sd fp) := (memB_iff m _).mp h1
  have hids : ids (build_workflow p n w h f s c sd fp) =
      ["1", "2", "3", "4", "5", "6", "7", "8"] := rfl
  rw [hids] at hmem
  have href : referencedIds (build_workflow p n w h f s c sd fp) =
      referencedIds (build_workflow "" "" 0 0 0 0 0 0 "") := rfl
  rw [href] at h2
  fin_cases hmem <;> first
    | rfl
    | exact absurd h2 (by decide)

/-- Witness for C7 at concrete inputs: node "8" of a concrete T2V graph is
a sink, and the theorem's uniqueness component applied to it yields "8". -/
theorem t2v_scenario_witness :
    isSink (build_workflow "a" "b" 480 320 100 8 1 0 "out") "8" = true ∧
    "8" = "8" :=
  ⟨(t2v_scenario.2.2 "a" "b" "out" 480 320 100 8 0 1).2.2.1,
   (t2v_scenario.2.2 "a" "b" "out" 480 320 100 8 0 1).2.2.2 "8"
     (t2v_scenario.2.2 "a" "b" "out" 480 320 100 8 0 1).2.2.1⟩

theorem basenameChars_no_slash (l : List Char) (c : Char)
    (hc : c ∈ basenameChars l) : (c != '/') = true := by
  unfold basenameChars at hc
  rw [List.mem_reverse] at hc
  have h := List.mem_takeWhile_imp hc
  exact h

/-- Counterexample to claim C10 as stated: for the output argument
"clip.mp4.mp4" the code strips only one extension, so the filename_prefix
placed into the graph is "clip.mp4", which still ends in ".mp4". -/
theorem doubled_extension_counterexample :
    resolveOutputName "clip.mp4.mp4" = "clip.mp4" ∧
    endswithB (resolveOutputName "clip.mp4.mp4") ".mp4" = true ∧
    getInput (build_workflow "p" "n" 480 320 100 8 1 0
        (resolveOutputName "clip.mp4.mp4")) "8" "filename_prefix" =
      some (JVal.str "clip.mp4") := by
  refine ⟨by decide, by decide, by decide⟩

/-- Claim C10 as amended: the filename_prefix literal placed into each
built graph is the basename of the output argument with the last four
characters removed when that basename ends in ".mp4" or ".png"; it never
contains a path separator — but a single removal can leave a name that
still ends in ".mp4" or ".png" when the basename carried a doubled
extension. -/
theorem output_name_amended :
    (∀ s : String, ((resolveOutputName s).data.all fun c => c != '/') = true) ∧
    (∀ (s p n : String) (w h f st sd : ℤ) (c : ℚ),
        getInput (build_workflow p n w h f st c sd (resolveOutputName s)) "8"
          "filename_prefix" = some (JVal.str (resolveOutputName s))) ∧
    (∀ (s p n im : String) (w h f st sd : ℤ) (c : ℚ),
        getInput (build_i2v_workflow p n im w h f st c sd (resolveOutputName s)) "15"
          "filename_prefix" = some (JVal.str (resolveOutputName s))) ∧
    (∀ (s p n im : String) (w h st sd : ℤ) (c : ℚ),
        getInput (build_i2i_workflow p n im w h st c sd (resolveOutputName s)) "10"
          "filename_prefix" = some (JVal.str (resolveOutputName s))) := by
  refine ⟨?_, fun _ _ _ _ _ _ _ _ _ => rfl, fun _ _ _ _ _ _ _ _ _ _ => rfl,
    fun _ _ _ _ _ _ _ _ _ => rfl⟩
  intro s
  apply List.all_eq_true.mpr
  intro c hc
  unfold resolveOutputName at hc
  split at hc
  · exact basenameChars_no_slash s.data c (List.take_subset _ _ hc)
  · exact basenameChars_no_slash s.data c hc
